import Mathlib

/-!
Verification of the credit-card validation pipeline
(`validator/validators.py`, `validator/serializers.py`, `validator/views.py`).

Strings are modelled as Lean `String`s over the ASCII range: Python's
regex class `\d`, `str.isdigit` and `int(c)` are modelled on ASCII
characters, where `\d` and `isdigit` coincide with `Char.isDigit`.
Fallible Python code (a `raise` of `ValidationError`, or an uncaught
exception) is modelled with `Except` and `Option`.
-/

namespace CardValidator

/-- The `CardScheme` enum of `validators.py`. -/
inductive CardScheme where
  | VISA
  | MASTERCARD
  | AMEX
  | DISCOVER
  | UNKNOWN
deriving DecidableEq, Repr

/-- The `.value` attribute of each `CardScheme` member. -/
def CardScheme.value : CardScheme → String
  | .VISA => "visa"
  | .MASTERCARD => "mastercard"
  | .AMEX => "amex"
  | .DISCOVER => "discover"
  | .UNKNOWN => "unknown"

/-- `sanitize_number`: `re.sub(r"[^\d]", "", value)` keeps exactly the
characters matching `\d` (modelled as `Char.isDigit`), in order. -/
def sanitize_number (value : String) : String :=
  ⟨value.data.filter Char.isDigit⟩

/-- Error message raised by `validate_length`. -/
def lengthErrMsg : String := "Number must be between 12 and 19 digits."

/-- Error message raised by `validate_digits`. -/
def digitsErrMsg : String := "Number must contain only digits."

/-- `validate_length`: raises a `ValidationError` unless
`12 <= len(number) <= 19`. -/
def validate_length (number : String) : Except String Unit :=
  if ¬ (12 ≤ number.length ∧ number.length ≤ 19) then
    Except.error lengthErrMsg
  else
    Except.ok ()

/-- Python's `str.isdigit` (ASCII range): true iff the string is
non-empty and every character is a decimal digit. -/
def str_isdigit (s : String) : Bool :=
  !s.data.isEmpty && s.data.all Char.isDigit

/-- `validate_digits`: raises a `ValidationError` unless
`number.isdigit()`. -/
def validate_digits (number : String) : Except String Unit :=
  if ¬ str_isdigit number then
    Except.error digitsErrMsg
  else
    Except.ok ()

/-- Python's `int(c)` for a single character (ASCII range): the digit
value for `'0'`–`'9'`, an exception (`none`) otherwise. -/
def pyIntChar (c : Char) : Option Nat :=
  if c.isDigit then some (c.toNat - 48) else none

/-- The loop body of `luhn_check`: `for i, digit in
enumerate(reverse_digits)` threading the index `i` and the accumulator
`total`; `none` models an uncaught `ValueError` from `int(digit)`. -/
def luhnLoop : List Char → Nat → Nat → Option Nat
  | [], _, total => some total
  | c :: rest, i, total =>
    match pyIntChar c with
    | none => none
    | some d =>
      let n := if i % 2 = 1 then (if 2 * d > 9 then 2 * d - 9 else 2 * d) else d
      luhnLoop rest (i + 1) (total + n)

/-- `luhn_check`: reverse the string, run the enumerated loop, test the
final total modulo 10. -/
def luhn_check (number : String) : Option Bool :=
  (luhnLoop number.data.reverse 0 0).map (fun total => total % 10 == 0)

/-- Python's `s.startswith(p)`: `p` is a prefix of `s`
(character-list prefix test). -/
def pyStartsWith (s p : String) : Bool :=
  p.data.isPrefixOf s.data

/-- `detect_scheme`: the ordered `if`/`elif` prefix cascade of
`validators.py`; `number.startswith(tup)` is `any` over the tuple. -/
def detect_scheme (number : String) : String :=
  if pyStartsWith number "4" then CardScheme.VISA.value
  else if ["51", "52", "53", "54", "55"].any (fun p => pyStartsWith number p) then
    CardScheme.MASTERCARD.value
  else if ["34", "37"].any (fun p => pyStartsWith number p) then
    CardScheme.AMEX.value
  else if pyStartsWith number "6" then CardScheme.DISCOVER.value
  else CardScheme.UNKNOWN.value

/-- `mask_number_for_logging`: `"****"` for short input, otherwise
`"****"` followed by the Python slice `number[-4:]`. -/
def mask_number_for_logging (number : String) : String :=
  if number.length < 4 then "****"
  else "****" ++ ⟨number.data.drop (number.data.length - 4)⟩

/-- The `Validation Result` record returned by `ValidateView.post`. -/
structure ValidationResult where
  valid : Bool
  scheme : String
  message : String
deriving DecidableEq, Repr

/-- `ValidateSerializer.validate_number`: sanitize, then length check,
then digit check; returns the sanitized number. -/
def validate_number (value : String) : Except String String :=
  let sanitized := sanitize_number value
  match validate_length sanitized with
  | .error e => .error e
  | .ok _ =>
    match validate_digits sanitized with
    | .error e => .error e
    | .ok _ => .ok sanitized

/-- `ValidateView.post` on the `number` field of the request body:
`.error` is the HTTP 400 branch, `.ok` the HTTP 200 branch; the outer
`none` models an uncaught exception inside `luhn_check` (never reached
on validated input). -/
def validateViewPost (raw : String) : Option (Except String ValidationResult) :=
  match validate_number raw with
  | .error e => some (.error e)
  | .ok number =>
    match luhn_check number with
    | none => none
    | some is_valid =>
      some (.ok ⟨is_valid, detect_scheme number,
        if is_valid then "OK" else "Invalid card number"⟩)

/-! ## Spec-side definitions (written from the spec's words, to be
compared with the source embeddings) -/

/-- The digit value of a character. -/
def digitVal (c : Char) : Nat := c.toNat - 48

/-- Spec wording: double the digit and subtract 9 when the doubled
value exceeds 9. -/
def luhnAdjust (d : Nat) : Nat :=
  if 2 * d > 9 then 2 * d - 9 else 2 * d

/-- Spec wording: at odd zero-based positions of the reversed traversal
double-and-adjust, at even positions keep the digit. -/
def luhnTerm (i d : Nat) : Nat :=
  if i % 2 = 1 then luhnAdjust d else d

/-- Spec wording: the Luhn total of a reversed digit sequence, as a
declarative indexed sum over the positions. -/
def luhnSpecTotal (revDigits : List Nat) : Nat :=
  (revDigits.enum.map (fun p => luhnTerm p.1 p.2)).sum

/-- Spec wording for `detect_scheme`: an ordered rule table, first
match wins, `unknown` when no rule matches. -/
def schemeRules : List (List String × String) :=
  [(["4"], "visa"),
   (["51", "52", "53", "54", "55"], "mastercard"),
   (["34", "37"], "amex"),
   (["6"], "discover")]

/-- Spec wording: classify by the first matching rule of the table. -/
def detect_scheme_spec (number : String) : String :=
  match schemeRules.find? (fun r => r.1.any (fun p => pyStartsWith number p)) with
  | some r => r.2
  | none => "unknown"

/-! ## Helper lemmas -/

/-- On an all-digit suffix the Luhn loop never fails and computes the
accumulator plus the indexed spec sum starting at the current index. -/
lemma luhnLoop_eq_spec (l : List Char) (i total : Nat)
    (h : ∀ c ∈ l, c.isDigit) :
    luhnLoop l i total =
      some (total + (((l.map digitVal).enumFrom i).map (fun p => luhnTerm p.1 p.2)).sum) := by
  induction l generalizing i total with
  | nil => simp [luhnLoop]
  | cons c rest ih =>
    have hc : c.isDigit := h c (by simp)
    have hrest : ∀ x ∈ rest, x.isDigit := fun x hx => h x (by simp [hx])
    rw [luhnLoop]
    simp only [pyIntChar, hc, if_pos, List.map_cons, List.enumFrom_cons, List.sum_cons]
    rw [ih _ _ hrest]
    congr 1
    simp only [luhnTerm, luhnAdjust, digitVal]
    split <;> omega

/-- `luhn_check` on an all-digit string decides divisibility by 10 of
the declarative Luhn total of the reversed digit values. -/
lemma luhn_check_eq_spec (s : String) (h : ∀ c ∈ s.data, c.isDigit) :
    luhn_check s =
      some (decide (luhnSpecTotal (s.data.reverse.map digitVal) % 10 = 0)) := by
  have hrev : ∀ c ∈ s.data.reverse, c.isDigit := by
    intro c hc
    exact h c (List.mem_reverse.mp hc)
  rw [luhn_check, luhnLoop_eq_spec _ _ _ hrev]
  simp [luhnSpecTotal, List.enum]
  rw [Bool.eq_iff_iff]
  simp [Nat.beq_eq]

/-- `(a ++ b).data = a.data ++ b.data` for strings. -/
lemma string_data_append (a b : String) : (a ++ b).data = a.data ++ b.data := by
  cases a
  cases b
  rfl

/-! ## Claim theorems -/

/-- C1: for every non-empty all-digit string, `luhn_check` returns
`true` iff the indexed Luhn total of the reversed digit values is
divisible by 10; and the three known vectors hold. -/
theorem luhn_check_correct :
    (∀ s : String, s.data ≠ [] → (∀ c ∈ s.data, c.isDigit) →
      (luhn_check s = some true ↔
        luhnSpecTotal (s.data.reverse.map digitVal) % 10 = 0)) ∧
    luhn_check "4532015112830366" = some true ∧
    luhn_check "4532015112830367" = some false ∧
    luhn_check "0000000000000000" = some true := by
  refine ⟨?_, by decide, by decide, by decide⟩
  intro s _ h
  rw [luhn_check_eq_spec s h]
  simp

/-- Witness for C1 at the concrete vector `"4532015112830366"`. -/
theorem luhn_check_correct_witness :
    luhn_check "4532015112830366" = some true ↔
      luhnSpecTotal (("4532015112830366" : String).data.reverse.map digitVal) % 10 = 0 :=
  luhn_check_correct.1 "4532015112830366" (by decide) (by decide)

/-- C2: `detect_scheme` agrees with the ordered first-match rule table
on every string, and the five scheme vectors hold. -/
theorem detect_scheme_cascade :
    (∀ s : String, detect_scheme s = detect_scheme_spec s) ∧
    detect_scheme "4532015112830366" = "visa" ∧
    detect_scheme "5425233430109903" = "mastercard" ∧
    detect_scheme "374245455400126" = "amex" ∧
    detect_scheme "6011000000000012" = "discover" ∧
    detect_scheme "9999999999999999" = "unknown" := by
  refine ⟨?_, by decide, by decide, by decide, by decide, by decide⟩
  intro s
  simp only [detect_scheme, detect_scheme_spec, schemeRules, List.find?]
  cases h1 : pyStartsWith s "4" <;>
    cases h2 : (["51", "52", "53", "54", "55"] : List String).any (fun p => pyStartsWith s p) <;>
      cases h3 : (["34", "37"] : List String).any (fun p => pyStartsWith s p) <;>
        cases h4 : pyStartsWith s "6" <;>
          simp [h1, h2, h3, h4, CardScheme.value, List.any_cons, List.any_nil]

/-- C3: `sanitize_number` always succeeds; its output is an order-
preserving subsequence of the input made only of decimal digits, and it
is exactly the one obtained by removing every non-digit: every
digit-only subsequence of the input is a subsequence of it. -/
theorem sanitize_number_spec :
    ∀ s : String,
      (sanitize_number s).data.Sublist s.data ∧
      (∀ c ∈ (sanitize_number s).data, c.isDigit) ∧
      (∀ t : List Char, t.Sublist s.data → (∀ c ∈ t, c.isDigit) →
        t.Sublist (sanitize_number s).data) := by
  intro s
  refine ⟨List.filter_sublist _, ?_, ?_⟩
  · intro c hc
    exact (List.mem_filter.mp hc).2
  · intro t ht hall
    have h2 := List.Sublist.filter Char.isDigit ht
    rwa [List.filter_eq_self.mpr hall] at h2

/-- Witness for C3 at `"a1b2c"` with the digit subsequence `['1']`. -/
theorem sanitize_number_spec_witness :
    (['1'] : List Char).Sublist (sanitize_number "a1b2c").data :=
  (sanitize_number_spec "a1b2c").2.2 ['1'] (by decide) (by decide)

/-- C4: whenever the sanitized input passes the length and digit
checks, the request pipeline returns HTTP 200 with `valid` the Luhn
outcome, `scheme` from `detect_scheme`, and message `"OK"` or
`"Invalid card number"`; a failed Luhn check is never an error. -/
theorem validateViewPost_ok :
    ∀ raw : String,
      validate_length (sanitize_number raw) = Except.ok () →
      validate_digits (sanitize_number raw) = Except.ok () →
      ∃ b : Bool,
        luhn_check (sanitize_number raw) = some b ∧
        validateViewPost raw =
          some (Except.ok ⟨b, detect_scheme (sanitize_number raw),
            if b then "OK" else "Invalid card number"⟩) := by
  intro raw hlen hdig
  have hall : ∀ c ∈ (sanitize_number raw).data, c.isDigit := by
    unfold validate_digits at hdig
    split at hdig
    · exact absurd hdig (by simp)
    · rename_i hsd
      have : str_isdigit (sanitize_number raw) = true := by
        by_contra hc
        exact hsd (by simpa using hc)
      unfold str_isdigit at this
      have := (Bool.and_eq_true _ _).mp this
      intro c hc
      exact List.all_eq_true.mp this.2 c hc
  refine ⟨_, luhn_check_eq_spec _ hall, ?_⟩
  simp [validateViewPost, validate_number, hlen, hdig, luhn_check_eq_spec _ hall]

/-- Witness for C4 at the spec's end-to-end vector with spaces. -/
theorem validateViewPost_ok_witness :
    ∃ b : Bool,
      luhn_check (sanitize_number "4532 0151 1283 0366") = some b ∧
      validateViewPost "4532 0151 1283 0366" =
        some (Except.ok ⟨b, detect_scheme (sanitize_number "4532 0151 1283 0366"),
          if b then "OK" else "Invalid card number"⟩) :=
  validateViewPost_ok "4532 0151 1283 0366" (by rfl) (by rfl)

/-- C5: `validate_length` fails exactly outside the inclusive length
range [12, 19]; lengths 12 and 19 pass, 11 and 20 fail. -/
theorem validate_length_spec :
    (∀ s : String,
      (validate_length s = Except.error lengthErrMsg ↔
        s.length < 12 ∨ 19 < s.length) ∧
      (validate_length s = Except.ok () ↔
        12 ≤ s.length ∧ s.length ≤ 19)) ∧
    validate_length "123456789012" = Except.ok () ∧
    validate_length "1234567890123456789" = Except.ok () ∧
    validate_length "12345678901" = Except.error lengthErrMsg ∧
    validate_length "12345678901234567890" = Except.error lengthErrMsg := by
  refine ⟨?_, by rfl, by rfl, by rfl, by rfl⟩
  intro s
  unfold validate_length
  by_cases h : 12 ≤ s.length ∧ s.length ≤ 19
  · rw [if_neg (not_not_intro h)]
    exact ⟨⟨fun he => absurd he (by simp), fun hc => absurd hc (by omega)⟩,
           fun _ => h, fun _ => rfl⟩
  · rw [if_pos h]
    exact ⟨⟨fun _ => by omega, fun _ => rfl⟩,
           ⟨fun he => absurd he (by simp), fun hc => absurd hc h⟩⟩

/-- C6 counterexample: the empty string consists only of digit
characters (vacuously), yet `validate_digits` fails on it, because
Python's `isdigit` is false on the empty string. -/
theorem validate_digits_empty_counterexample :
    ("" : String).data.all Char.isDigit = true ∧
    validate_digits "" = Except.error digitsErrMsg :=
  ⟨by decide, by rfl⟩

/-- C6 amended: `validate_digits` fails with the format error iff the
string is empty or some character is not a decimal digit; it succeeds
exactly on non-empty all-digit strings. -/
theorem validate_digits_amended :
    ∀ s : String,
      (validate_digits s = Except.error digitsErrMsg ↔
        s.data = [] ∨ ∃ c ∈ s.data, ¬ c.isDigit) ∧
      (validate_digits s = Except.ok () ↔
        s.data ≠ [] ∧ ∀ c ∈ s.data, c.isDigit) := by
  intro s
  have hiff : str_isdigit s = true ↔ (s.data ≠ [] ∧ ∀ c ∈ s.data, c.isDigit) := by
    simp [str_isdigit, List.all_eq_true, List.isEmpty_iff]
  unfold validate_digits
  by_cases h : str_isdigit s
  · rw [if_neg (not_not_intro h)]
    obtain ⟨hne, hall⟩ := hiff.mp h
    refine ⟨⟨fun he => absurd he (by simp), ?_⟩, fun _ => ⟨hne, hall⟩, fun _ => rfl⟩
    rintro (he | ⟨c, hc, hcd⟩)
    · exact absurd he hne
    · exact absurd (hall c hc) hcd
  · rw [if_pos h]
    have hn : ¬(s.data ≠ [] ∧ ∀ c ∈ s.data, c.isDigit) := fun hc => h (hiff.mpr hc)
    refine ⟨⟨fun _ => ?_, fun _ => rfl⟩,
            ⟨fun he => absurd he (by simp), fun hc => absurd (hiff.mpr hc) h⟩⟩
    by_cases he : s.data = []
    · exact Or.inl he
    · right
      have hnall : ¬ ∀ c ∈ s.data, c.isDigit := fun hall => hn ⟨he, hall⟩
      push_neg at hnall
      obtain ⟨c, hc, hcd⟩ := hnall
      exact ⟨c, hc, by simpa using hcd⟩

/-- C7: masking returns `"****"` for inputs shorter than 4 characters,
and otherwise `"****"` followed by exactly the last 4 characters, an
8-character result; the three masking vectors hold. -/
theorem mask_number_for_logging_spec :
    (∀ s : String,
      (s.length < 4 → mask_number_for_logging s = "****") ∧
      (4 ≤ s.length → ∃ pre suf : List Char,
        s.data = pre ++ suf ∧ suf.length = 4 ∧
        (mask_number_for_logging s).data = ['*', '*', '*', '*'] ++ suf ∧
        (mask_number_for_logging s).length = 8)) ∧
    mask_number_for_logging "4532015112830366" = "****0366" ∧
    mask_number_for_logging "123" = "****" ∧
    mask_number_for_logging "1234" = "****1234" := by
  refine ⟨?_, by decide, by decide, by decide⟩
  intro s
  constructor
  · intro h
    simp [mask_number_for_logging, h]
  · intro h
    have h4 : ¬ s.length < 4 := by omega
    have hlen : s.length = s.data.length := rfl
    have hd : mask_number_for_logging s =
        "****" ++ String.mk (s.data.drop (s.data.length - 4)) := by
      unfold mask_number_for_logging
      rw [if_neg h4]
    refine ⟨s.data.take (s.data.length - 4), s.data.drop (s.data.length - 4),
      (List.take_append_drop _ _).symm, ?_, ?_, ?_⟩
    · rw [List.length_drop]
      omega
    · rw [hd, string_data_append]
    · show (mask_number_for_logging s).data.length = 8
      rw [hd, string_data_append, List.length_append, List.length_drop]
      have h5 : ("****" : String).data.length = 4 := by decide
      omega

/-- Witness for C7 at `"123"` (short branch) and `"1234"` (long
branch). -/
theorem mask_number_for_logging_spec_witness :
    mask_number_for_logging "123" = "****" ∧
    ∃ pre suf : List Char,
      ("1234" : String).data = pre ++ suf ∧ suf.length = 4 ∧
      (mask_number_for_logging "1234").data = ['*', '*', '*', '*'] ++ suf ∧
      (mask_number_for_logging "1234").length = 8 :=
  ⟨(mask_number_for_logging_spec.1 "123").1 (by decide),
   (mask_number_for_logging_spec.1 "1234").2 (by decide)⟩

/-- C8: `luhn_check` on the empty string returns `true`: the loop runs
zero iterations, leaving the total at 0, and 0 mod 10 = 0. -/
theorem luhn_check_empty :
    luhn_check "" = some true ∧ luhnLoop [] 0 0 = some 0 :=
  ⟨by rfl, by rfl⟩

/-- C9: `sanitize_number` is idempotent, and is the identity on
all-digit strings. -/
theorem sanitize_number_idempotent :
    (∀ s : String, sanitize_number (sanitize_number s) = sanitize_number s) ∧
    (∀ s : String, (∀ c ∈ s.data, c.isDigit) → sanitize_number s = s) := by
  have hid : ∀ s : String, (∀ c ∈ s.data, c.isDigit) → sanitize_number s = s := by
    intro s h
    show String.mk (s.data.filter Char.isDigit) = s
    rw [List.filter_eq_self.mpr h]
  refine ⟨?_, hid⟩
  intro s
  apply hid
  intro c hc
  exact (List.mem_filter.mp hc).2

/-- Witness for C9 at `"45a3"` and `"453"`. -/
theorem sanitize_number_idempotent_witness :
    sanitize_number (sanitize_number "45a3") = sanitize_number "45a3" ∧
    sanitize_number "453" = "453" :=
  ⟨sanitize_number_idempotent.1 "45a3",
   sanitize_number_idempotent.2 "453" (by decide)⟩

/-- C10: `detect_scheme` on the empty string matches no prefix rule
and returns the `unknown` scheme value. -/
theorem detect_scheme_empty :
    detect_scheme "" = CardScheme.UNKNOWN.value ∧
    CardScheme.UNKNOWN.value = "unknown" :=
  ⟨by decide, by rfl⟩

end CardValidator
